import Mathlib

/-!
Shallow embedding of the scroll/visibility coordination logic of the
suryahospital site scripts.

Sources embedded:
- src/script.js, first document (lines 1-272): CONFIG, handleScroll,
  revealObserver callback, drag-to-scroll handlers, highlightNav (the
  variant using a fixed 150 px lookahead and substring href matching).
- src/script.js, second document (lines 273-552): handleScroll with the
  scroll-down indicator, highlightNav (the subpage-safe variant using
  window.innerHeight / 3 and exact hash matching).
- src/unnamed/part_000: handleScroll with classList.toggle and the
  back-to-top button.

JavaScript numbers that may be NaN are embedded as `JNum`; every JS
comparison involving NaN is false, which `JNum.gt` reproduces. All other
quantities in the embedded code paths are integral, so `Int` is exact.
`window.innerHeight / 3` is real division in JS; for a nonnegative
innerHeight and integer scrollY and offsets, the comparison
`scrollY >= top - innerHeight / 3` has the same value as the comparison
with flooring division, which is what `Int` division computes here.
-/

namespace Surya

/-- CONFIG object of src/script.js (second document, lines 290-295).
The first document has the same scrollThreshold and dragSpeed.
animThreshold (0.15) only parametrises the platform intersection
observer and never enters the embedded arithmetic. -/
structure Config where
  scrollThreshold : Int
  headerOffset : Int
  dragSpeed : Int
deriving DecidableEq

def CONFIG : Config := { scrollThreshold := 20, headerOffset := 90, dragSpeed := 2 }

/-- A JavaScript number that may be NaN. -/
inductive JNum where
  | nan : JNum
  | val : Int → JNum
deriving DecidableEq

/-- JS strict greater-than: any comparison with NaN is false. -/
def JNum.gt : JNum → JNum → Bool
  | .val a, .val b => decide (a > b)
  | _, _ => false

/-- Presentational state touched by handleScroll in src/script.js
(second document): the header "scrolled" class and whether the
scroll-down indicator is shown (opacity 0.8 = visible, 0 = hidden). -/
structure ScrollFx where
  headerScrolled : Bool
  indicatorVisible : Bool
deriving DecidableEq

/-- handleScroll, src/script.js lines 421-442: header gets the
"scrolled" class iff scrollY > CONFIG.scrollThreshold; the indicator is
hidden iff scrollY > 100. No validation of the input is performed. -/
def handleScroll (st : ScrollFx) (scrollY : JNum) : ScrollFx :=
  { st with
    headerScrolled := JNum.gt scrollY (JNum.val CONFIG.scrollThreshold),
    indicatorVisible := ! JNum.gt scrollY (JNum.val 100) }

/-- Presentational state touched by handleScroll in src/unnamed/part_000. -/
structure HealthScrollFx where
  scrolled : Bool
  backToTopVisible : Bool
deriving DecidableEq

/-- handleScroll, src/unnamed/part_000 lines 63-74:
classList.toggle("scrolled", scrollY > 100) and
toggle("visible", scrollY > 300) on the back-to-top button. -/
def handleScrollHealth (st : HealthScrollFx) (scrollY : JNum) : HealthScrollFx :=
  { st with
    scrolled := JNum.gt scrollY (JNum.val 100),
    backToTopVisible := JNum.gt scrollY (JNum.val 300) }

/-- The scroll wiring, src/script.js line 444 (likewise line 171 of the
first document and part_000): window.addEventListener("scroll",
handleScroll) with no frame gate, so every scroll event delivered in a
frame window invokes handleScroll once. The second component counts
handler executions for a batch of events delivered in one frame window. -/
def onScrollBatch (st : ScrollFx) (events : List JNum) : ScrollFx × Nat :=
  events.foldl (fun acc y => (handleScroll acc.1 y, acc.2 + 1)) (st, 0)

/-- A section element carrying an id, with its offsetTop. -/
structure Section where
  id : String
  top : Int
deriving DecidableEq

/-- A navigation link: its href attribute and whether it currently
carries the "active" class. -/
structure NavLink where
  href : String
  active : Bool
deriving DecidableEq

/-- The page state read and written by highlightNav. -/
structure Page where
  innerWidth : Int
  innerHeight : Int
  scrollY : Int
  sections : List Section
  navLinks : List NavLink
deriving DecidableEq

/-- The currentId accumulation loop shared by both highlightNav
variants (src/script.js lines 249-255 and 518-525): start from the
empty string, and for each section in document order overwrite
currentId when scrollY >= top - T. The first document uses T = 150,
the second T = innerHeight / 3. -/
def computeCurrentId (sections : List Section) (scrollY T : Int) : String :=
  sections.foldl (fun cur s => if scrollY ≥ s.top - T then s.id else cur) ""

/-- The active section id derived by the subpage-safe highlightNav
(src/script.js lines 518-525); empty string plays the role of null. -/
def activeSectionIdOf (sections : List Section) (scrollY innerHeight : Int) : String :=
  computeCurrentId sections scrollY (innerHeight / 3)

/-- Specification-side description of the loop: the id of the last
section in list order satisfying top - T <= scrollY, or "" if none. -/
def lastQualifyingId (sections : List Section) (scrollY T : Int) : String :=
  ((sections.filter (fun s => decide (scrollY ≥ s.top - T))).map (fun s => s.id)).getLastD ""

/-- Character-list test that the first list begins with the second. -/
def charsBegins : List Char → List Char → Bool
  | _, [] => true
  | [], _ :: _ => false
  | a :: as, b :: bs => a == b && charsBegins as bs

/-- JS String.startsWith. -/
def jsStartsWith (s pre : String) : Bool := charsBegins s.toList pre.toList

/-- JS String.includes on character lists (substring containment;
the empty needle is always contained). -/
def charsIncludes : List Char → List Char → Bool
  | [], needle => needle.isEmpty
  | c :: t, needle => charsBegins (c :: t) needle || charsIncludes t needle

/-- JS String.includes. -/
def jsIncludes (hay needle : String) : Bool := charsIncludes hay.toList needle.toList

/-- highlightNav, src/script.js lines 509-539 (subpage-safe variant):
return unchanged below the 768 px breakpoint or when no id-carrying
sections exist; compute currentId with lookahead innerHeight / 3; when
currentId is truthy, set the active class of every hash link to whether
its href equals "#" + currentId, leaving non-hash links untouched; when
currentId is falsy, change nothing. The JS binds currentId to a local
once; the embedding repeats the same pure expression, which is equal. -/
def highlightNav (p : Page) : Page :=
  if p.innerWidth ≤ 768 then p
  else if p.sections.length = 0 then p
  else if activeSectionIdOf p.sections p.scrollY p.innerHeight = "" then p
  else
    { p with navLinks := p.navLinks.map (fun l =>
        if jsStartsWith l.href "#"
        then { l with
               active := l.href == "#" ++ activeSectionIdOf p.sections p.scrollY p.innerHeight }
        else l) }

/-- highlightNav, src/script.js lines 243-263 (first document): no
empty-sections guard; lookahead is a fixed 150 px; EVERY link first has
the active class removed, and it is re-added iff the href CONTAINS
currentId as a substring and currentId is nonempty. -/
def highlightNav_v1 (p : Page) : Page :=
  if p.innerWidth ≤ 768 then p
  else
    let currentId := computeCurrentId p.sections p.scrollY 150
    { p with navLinks := p.navLinks.map (fun l =>
        { l with active := jsIncludes l.href currentId && ! (currentId == "") }) }

/-- Number of links currently carrying the active class. -/
def activeCount (links : List NavLink) : Nat :=
  (links.filter (fun l => l.active)).length

/-- One element tracked by revealObserver (src/script.js lines 184-197):
its two animation classes and whether it is still observed. -/
structure RevealEntry where
  hiddenClass : Bool
  visibleClass : Bool
  observed : Bool
deriving DecidableEq

/-- Registration state: reveal-hidden added, element observed
(src/script.js lines 194-197). -/
def pendingEntry : RevealEntry :=
  { hiddenClass := true, visibleClass := false, observed := true }

/-- The revealed state: visible class on, hidden class off, unobserved. -/
def revealedEntry : RevealEntry :=
  { hiddenClass := false, visibleClass := true, observed := false }

/-- The revealObserver callback for one entry (src/script.js lines
184-192): when the notification is intersecting, add reveal-visible,
remove reveal-hidden and unobserve the target; otherwise do nothing. -/
def onIntersection (e : RevealEntry) (isIntersecting : Bool) : RevealEntry :=
  if isIntersecting then
    { e with hiddenClass := false, visibleClass := true, observed := false }
  else e

/-- Deliver a sequence of intersection notifications to one entry. -/
def runReveal (e : RevealEntry) (l : List Bool) : RevealEntry :=
  l.foldl onIntersection e

/-- An entry is presented as revealed when the visible class is on and
the hidden class is off. -/
def isRevealed (e : RevealEntry) : Bool := e.visibleClass && ! e.hiddenClass

/-- Number of Pending-to-Revealed transitions along a notification
sequence. -/
def revealEdges : RevealEntry → List Bool → Nat
  | _, [] => 0
  | e, b :: l =>
      (if isRevealed (onIntersection e b) && ! isRevealed e then 1 else 0)
        + revealEdges (onIntersection e b) l

/-- State of the drag-to-scroll handlers (src/script.js lines 202-232
and 474-504): the isDown flag, the captured startX and scrollLeft, and
the scroll offset of the container itself. -/
structure DragState where
  isDown : Bool
  startX : Int
  scrollLeft : Int
  containerScrollLeft : Int
deriving DecidableEq

/-- mousedown handler (src/script.js lines 207-212 and 479-485):
set isDown, capture startX = pageX - offsetLeft and
scrollLeft = container.scrollLeft. -/
def mousedown (s : DragState) (pageX offsetLeft : Int) : DragState :=
  { s with isDown := true, startX := pageX - offsetLeft,
           scrollLeft := s.containerScrollLeft }

/-- stopDrag (mouseup / mouseleave handler): clear isDown. -/
def stopDrag (s : DragState) : DragState := { s with isDown := false }

/-- mousemove handler (src/script.js lines 222-228 and 495-501):
ignore unless isDown; otherwise x = pageX - offsetLeft,
walk = (x - startX) * CONFIG.dragSpeed, and the container offset is
set to scrollLeft - walk. -/
def mousemove (s : DragState) (pageX offsetLeft : Int) : DragState :=
  if ! s.isDown then s
  else
    { s with containerScrollLeft :=
        s.scrollLeft - ((pageX - offsetLeft) - s.startX) * CONFIG.dragSpeed }

/-- Deliver a sequence of (pageX, offsetLeft) mousemove events. -/
def runMoves (s : DragState) (ms : List (Int × Int)) : DragState :=
  ms.foldl (fun st m => mousemove st m.1 m.2) s

/-- Concrete page used as witness input for the C6 theorem. -/
def pageC6w : Page :=
  { innerWidth := 1024, innerHeight := 0, scrollY := 0,
    sections := [{ id := "a", top := 0 }],
    navLinks := [{ href := "#a", active := false }, { href := "y.html", active := true }] }

/-- Concrete page for the C6 counterexample: wide viewport, one section
that does not qualify at scrollY 0, two links currently active. -/
def pageC6cx : Page :=
  { innerWidth := 1024, innerHeight := 0, scrollY := 0,
    sections := [{ id := "a", top := 500 }],
    navLinks := [{ href := "#a", active := true }, { href := "x.html", active := true }] }

/-- Concrete page for C3: empty section index, one active link. -/
def pC3 : Page :=
  { innerWidth := 1024, innerHeight := 800, scrollY := 0,
    sections := [], navLinks := [{ href := "#b", active := true }] }

/-- The three sections of the spec's tie-break example. -/
def sampleSections : List Section :=
  [{ id := "A", top := 0 }, { id := "B", top := 500 }, { id := "C", top := 1000 }]

/-- A single section that does not qualify at scrollY 0 (for the C2 witness). -/
def sNoQual : List Section := [{ id := "A", top := 500 }]

/-- Concrete presentational states for C1 and C5. -/
def stC1 : ScrollFx := { headerScrolled := false, indicatorVisible := true }

def stC5 : ScrollFx := { headerScrolled := true, indicatorVisible := false }

/-- Concrete drag states for C8, C9 and C10. -/
def drag0 : DragState :=
  { isDown := false, startX := 0, scrollLeft := 0, containerScrollLeft := 100 }

def dragC9 : DragState :=
  { isDown := false, startX := 3, scrollLeft := 7, containerScrollLeft := 9 }

def dragA : DragState :=
  { isDown := true, startX := 11, scrollLeft := 22, containerScrollLeft := 33 }

def dragB : DragState :=
  { isDown := false, startX := 44, scrollLeft := 55, containerScrollLeft := 33 }

/-- A fresh adapter state holding a given container offset (no drag in
progress, zero captured origin). -/
def freshDrag (c : Int) : DragState :=
  { isDown := false, startX := 0, scrollLeft := 0, containerScrollLeft := c }

/-! ### Helper lemmas -/

theorem foldl_lastQ (q : Section → Bool) :
    ∀ (l : List Section) (cur : String),
      l.foldl (fun c s => if q s then s.id else c) cur
        = ((l.filter q).map (fun s => s.id)).getLastD cur := by
  intro l
  induction l with
  | nil => intro cur; rfl
  | cons s t ih =>
    intro cur
    rw [List.foldl_cons, List.filter_cons]
    cases hq : q s with
    | true =>
      rw [if_pos rfl, if_pos rfl, List.map_cons, List.getLastD_cons]
      exact ih s.id
    | false =>
      rw [if_neg Bool.false_ne_true, if_neg Bool.false_ne_true]
      exact ih cur

theorem onScrollBatch_count (events : List JNum) :
    ∀ (st : ScrollFx) (n : Nat),
      (events.foldl (fun acc y => (handleScroll acc.1 y, acc.2 + 1)) (st, n)).2
        = n + events.length := by
  induction events with
  | nil => intro st n; simp
  | cons e t ih =>
    intro st n
    rw [List.foldl_cons, ih, List.length_cons]
    omega

theorem onIntersection_cases (e : RevealEntry) (b : Bool)
    (h : e = pendingEntry ∨ e = revealedEntry) :
    onIntersection e b = pendingEntry ∨ onIntersection e b = revealedEntry := by
  rcases h with h | h <;> subst h <;> cases b <;> decide

theorem runReveal_cases (l : List Bool) :
    ∀ e, (e = pendingEntry ∨ e = revealedEntry) →
      (runReveal e l = pendingEntry ∨ runReveal e l = revealedEntry) := by
  induction l with
  | nil => intro e h; exact h
  | cons b t ih => intro e h; exact ih (onIntersection e b) (onIntersection_cases e b h)

theorem isRevealed_onIntersection (e : RevealEntry) (b : Bool)
    (h : isRevealed e = true) : isRevealed (onIntersection e b) = true := by
  cases b
  · simpa [onIntersection] using h
  · simp [onIntersection, isRevealed]

theorem revealEdges_of_revealed : ∀ (l : List Bool) (e : RevealEntry),
    isRevealed e = true → revealEdges e l = 0 := by
  intro l
  induction l with
  | nil => intro e _; rfl
  | cons b t ih =>
    intro e he
    have h2 := isRevealed_onIntersection e b he
    simp [revealEdges, he, ih _ h2]

theorem revealEdges_pending_le (l : List Bool) : revealEdges pendingEntry l ≤ 1 := by
  induction l with
  | nil => decide
  | cons b t ih =>
    cases b
    · have h : revealEdges pendingEntry (false :: t) = revealEdges pendingEntry t := by
        simp [revealEdges, onIntersection, pendingEntry, isRevealed]
      rw [h]; exact ih
    · have h0 := revealEdges_of_revealed t (onIntersection pendingEntry true) (by decide)
      simp only [revealEdges, h0, Nat.add_zero]
      decide

theorem mousedown_congr (s1 s2 : DragState) (pageX offsetLeft : Int)
    (h : s1.containerScrollLeft = s2.containerScrollLeft) :
    mousedown s1 pageX offsetLeft = mousedown s2 pageX offsetLeft := by
  unfold mousedown
  rw [h]

theorem computeCurrentId_eq (l : List Section) (y T : Int) :
    computeCurrentId l y T = lastQualifyingId l y T := by
  have h : (fun (c : String) (s : Section) => if y ≥ s.top - T then s.id else c)
      = (fun (c : String) (s : Section) =>
          if (fun s => decide (y ≥ s.top - T)) s then s.id else c) := by
    funext c s
    by_cases hs : y ≥ s.top - T <;> simp [hs]
  unfold computeCurrentId lastQualifyingId
  rw [h]
  exact foldl_lastQ (fun s => decide (y ≥ s.top - T)) l ""

/-! ### Claim theorems -/

/-- Claim C1, counterexample: two scroll notifications delivered within
one frame window execute the evaluation callback twice, not once — the
listener is attached directly, with no frame-request flag. -/
theorem claim_C1_counterexample :
    (onScrollBatch stC1 [JNum.val 0, JNum.val 0]).2 = 2
    ∧ (onScrollBatch stC1 [JNum.val 0, JNum.val 0]).2 ≠ 1 := by decide

/-- Claim C1, amended: for N scroll notifications delivered within a
single frame window, the evaluation callback executes exactly N times;
the code performs no frame coalescing. -/
theorem claim_C1_amended (st : ScrollFx) (events : List JNum) :
    (onScrollBatch st events).2 = events.length := by
  unfold onScrollBatch
  rw [onScrollBatch_count events st 0]
  omega

/-- Claim C2: for every section index and scroll sample, the derived
active id is the id of the last section in list order satisfying
topOffset - innerHeight/3 <= scrollY, the empty string (none) when no
section qualifies, and on sections at tops 0, 500, 1000 with zero
lookahead, scrollY 600 yields B and scrollY 1000 yields C. -/
theorem claim_C2 :
    (∀ (l : List Section) (y h : Int),
        activeSectionIdOf l y h = lastQualifyingId l y (h / 3))
    ∧ (∀ (l : List Section) (y h : Int),
        l.filter (fun s => decide (y ≥ s.top - h / 3)) = [] →
          activeSectionIdOf l y h = "")
    ∧ activeSectionIdOf sampleSections 600 0 = "B"
    ∧ activeSectionIdOf sampleSections 1000 0 = "C" := by
  refine ⟨fun l y h => computeCurrentId_eq l y (h / 3),
          fun l y h hnone => ?_, by decide, by decide⟩
  unfold activeSectionIdOf
  rw [computeCurrentId_eq l y (h / 3)]
  unfold lastQualifyingId
  rw [hnone]
  rfl

/-- Witness for C2 at a concrete non-qualifying index. -/
theorem claim_C2_witness :
    sNoQual.filter (fun s => decide ((0 : Int) ≥ s.top - 0 / 3)) = []
    ∧ activeSectionIdOf sNoQual 0 0 = "" :=
  ⟨by decide, claim_C2.2.1 sNoQual 0 0 (by decide)⟩

/-- Claim C3, counterexample: the first-document highlighter, invoked on
a page with an empty section index and a previously active link, removes
the active marking — the state regresses instead of being preserved. -/
theorem claim_C3_counterexample :
    pC3.sections = []
    ∧ pC3.navLinks = [{ href := "#b", active := true }]
    ∧ (highlightNav_v1 pC3).navLinks = [{ href := "#b", active := false }] :=
  ⟨rfl, rfl, by decide⟩

/-- Claim C3, amended: the subpage-safe highlighter (second document)
leaves the whole page state, and in particular every active marking,
unchanged when the section index is empty; the first-document variant
instead clears the marking. -/
theorem claim_C3_amended (p : Page) (h : p.sections = []) : highlightNav p = p := by
  unfold highlightNav
  by_cases hw : p.innerWidth ≤ 768
  · rw [if_pos hw]
  · rw [if_neg hw, if_pos (by rw [h]; rfl : p.sections.length = 0)]

/-- Witness for the amended C3 at a concrete page. -/
theorem claim_C3_witness : pC3.sections = [] ∧ highlightNav pC3 = pC3 :=
  ⟨rfl, claim_C3_amended pC3 rfl⟩

/-- Claim C4: a reveal entry makes the Pending-to-Revealed transition at
most once along any notification sequence, a revealed entry stays
revealed under every further notification, the revealed state is a fixed
point of the handler (duplicate intersecting notifications are silently
ignored), and from registration an entry is only ever in the pending or
the revealed state. -/
theorem claim_C4 :
    (∀ l : List Bool, revealEdges pendingEntry l ≤ 1)
    ∧ (∀ (e : RevealEntry) (b : Bool),
        isRevealed e = true → isRevealed (onIntersection e b) = true)
    ∧ (∀ b : Bool, onIntersection revealedEntry b = revealedEntry)
    ∧ (∀ l : List Bool,
        runReveal pendingEntry l = pendingEntry ∨ runReveal pendingEntry l = revealedEntry) :=
  ⟨revealEdges_pending_le, isRevealed_onIntersection,
    fun b => by cases b <;> decide,
    fun l => runReveal_cases l pendingEntry (Or.inl rfl)⟩

/-- Witness for C4 at the revealed entry and an intersecting toggle. -/
theorem claim_C4_witness :
    isRevealed revealedEntry = true
    ∧ isRevealed (onIntersection revealedEntry true) = true :=
  ⟨by decide, claim_C4.2.1 revealedEntry true (by decide)⟩

/-- Claim C5, counterexample: a NaN scroll offset is not rejected; the
evaluation runs, turns the header-scrolled flag off and the indicator
on, so the prior state (headerScrolled true, indicator hidden) is not
retained, and no precondition violation is reported (the handler has no
error channel). -/
theorem claim_C5_counterexample :
    handleScroll stC5 JNum.nan = { headerScrolled := false, indicatorVisible := true }
    ∧ handleScroll stC5 JNum.nan ≠ stC5 := by decide

/-- Claim C5, amended: malformed input is not validated; the evaluation
always proceeds, every NaN comparison is false, so a NaN offset forces
headerScrolled false and indicatorVisible true regardless of the prior
state; the handler is a total function, so the loop never crashes. -/
theorem claim_C5_amended (st : ScrollFx) :
    handleScroll st JNum.nan = { headerScrolled := false, indicatorVisible := true } := rfl

/-- Claim C6, counterexample: above the breakpoint with a derived active
id of none, the highlighter leaves both previously active links active —
two links carry the marker, not zero. -/
theorem claim_C6_counterexample :
    activeSectionIdOf pageC6cx.sections pageC6cx.scrollY pageC6cx.innerHeight = ""
    ∧ highlightNav pageC6cx = pageC6cx
    ∧ activeCount (highlightNav pageC6cx).navLinks = 2 := by decide

/-- Claim C6, amended: above the breakpoint, when the derived id is none
the highlighter changes nothing (prior markings persist); when it is
some id, each hash link ends active exactly when its href equals the
hash of that id — so exactly one hash link is active when exactly one
link targets the active section — and non-hash links are never touched. -/
theorem claim_C6_amended (p : Page) (hw : ¬ p.innerWidth ≤ 768) :
    (activeSectionIdOf p.sections p.scrollY p.innerHeight = "" → highlightNav p = p)
    ∧ (activeSectionIdOf p.sections p.scrollY p.innerHeight ≠ "" →
        (highlightNav p).navLinks = p.navLinks.map (fun l =>
          if jsStartsWith l.href "#"
          then { l with
                 active := l.href == "#" ++ activeSectionIdOf p.sections p.scrollY p.innerHeight }
          else l)) := by
  constructor
  · intro hc
    unfold highlightNav
    rw [if_neg hw]
    by_cases h0 : p.sections.length = 0
    · rw [if_pos h0]
    · rw [if_neg h0, if_pos hc]
  · intro hc
    have h0 : ¬ p.sections.length = 0 := by
      intro h0
      apply hc
      have he : p.sections = [] := List.length_eq_zero.mp h0
      unfold activeSectionIdOf computeCurrentId
      rw [he]
      rfl
    unfold highlightNav
    rw [if_neg hw, if_neg h0, if_neg hc]

/-- Witness for the amended C6: concrete page whose active id is "a". -/
theorem claim_C6_witness :
    ¬ pageC6w.innerWidth ≤ 768
    ∧ activeSectionIdOf pageC6w.sections pageC6w.scrollY pageC6w.innerHeight ≠ ""
    ∧ (highlightNav pageC6w).navLinks = pageC6w.navLinks.map (fun l =>
        if jsStartsWith l.href "#"
        then { l with
               active := l.href ==
                 "#" ++ activeSectionIdOf pageC6w.sections pageC6w.scrollY pageC6w.innerHeight }
        else l) :=
  ⟨by decide, by decide, (claim_C6_amended pageC6w (by decide)).2 (by decide)⟩

/-- Claim C7: the header-scrolled flag is true exactly when the offset
strictly exceeds the configured threshold, with the stated boundary
values, in both the script.js handler (threshold 20) and the part_000
handler (threshold 100). -/
theorem claim_C7 :
    (∀ (st : ScrollFx) (y : Int),
        (handleScroll st (JNum.val y)).headerScrolled = decide (y > CONFIG.scrollThreshold))
    ∧ (∀ st : ScrollFx,
        (handleScroll st (JNum.val CONFIG.scrollThreshold)).headerScrolled = false)
    ∧ (∀ st : ScrollFx,
        (handleScroll st (JNum.val (CONFIG.scrollThreshold + 1))).headerScrolled = true)
    ∧ (∀ (st : HealthScrollFx) (y : Int),
        (handleScrollHealth st (JNum.val y)).scrolled = decide (y > 100))
    ∧ (∀ st : HealthScrollFx, (handleScrollHealth st (JNum.val 100)).scrolled = false)
    ∧ (∀ st : HealthScrollFx, (handleScrollHealth st (JNum.val 101)).scrolled = true) :=
  ⟨fun _ _ => rfl, fun _ => rfl, fun _ => rfl, fun _ _ => rfl, fun _ => rfl, fun _ => rfl⟩

/-- Claim C8: while dragging, a pointer move sets the container offset
to the origin scroll offset minus the pointer displacement from the
origin times the drag speed multiplier; in particular from origin offset
100, origin pointer 50, speed 2, a move to 30 gives offset 140. -/
theorem claim_C8 :
    (∀ (s : DragState) (pageX0 pageX1 offsetLeft : Int),
        (mousemove (mousedown s pageX0 offsetLeft) pageX1 offsetLeft).containerScrollLeft
          = s.containerScrollLeft
            - ((pageX1 - offsetLeft) - (pageX0 - offsetLeft)) * CONFIG.dragSpeed)
    ∧ (mousemove (mousedown drag0 50 0) 30 0).containerScrollLeft = 140 :=
  ⟨fun _ _ _ _ => rfl, by decide⟩

/-- Claim C9: a pointer move received while not dragging leaves the
entire state, in particular the container scroll offset, unchanged; the
handler is total, so no error is raised. -/
theorem claim_C9 (s : DragState) (pageX offsetLeft : Int) (h : s.isDown = false) :
    mousemove s pageX offsetLeft = s := by
  unfold mousemove
  rw [h]
  rfl

/-- Witness for C9 at a concrete idle state. -/
theorem claim_C9_witness : dragC9.isDown = false ∧ mousemove dragC9 5 1 = dragC9 :=
  ⟨rfl, claim_C9 dragC9 5 1 rfl⟩

/-- Claim C10: a pointer-down transition re-captures the origin pointer
position and the current container offset, so two states agreeing on the
container offset become identical after the same pointer-down; hence any
subsequent move sequence behaves as if the drag had started from a fresh
adapter, independent of earlier drag sessions. -/
theorem claim_C10 :
    (∀ (s1 s2 : DragState) (pageX offsetLeft : Int),
        s1.containerScrollLeft = s2.containerScrollLeft →
          mousedown s1 pageX offsetLeft = mousedown s2 pageX offsetLeft)
    ∧ (∀ (s : DragState) (pageX offsetLeft : Int) (ms : List (Int × Int)),
        runMoves (mousedown s pageX offsetLeft) ms
          = runMoves (mousedown (freshDrag s.containerScrollLeft) pageX offsetLeft) ms) := by
  refine ⟨mousedown_congr, fun s x off ms => ?_⟩
  rw [mousedown_congr s (freshDrag s.containerScrollLeft) x off rfl]

/-- Witness for C10 at two concrete prior states sharing an offset. -/
theorem claim_C10_witness :
    dragA.containerScrollLeft = dragB.containerScrollLeft
    ∧ mousedown dragA 5 2 = mousedown dragB 5 2 :=
  ⟨rfl, claim_C10.1 dragA dragB 5 2 rfl⟩

end Surya
